import Mathlib

/-! eve: a Mattermost chat bot (`main.go`)

A shallow embedding of the bot's control flow.  The package-level variables of
`main.go` become the record `Globals`, the Mattermost HTTP client becomes a
record of server responses (`Client`), and every function of `main.go` becomes
a function from the globals to a `Result`: the globals afterwards, the
observable actions performed in order (`Action`), and the way the function
stopped (`Halt`, or `none` when it returned normally).
-/

namespace Eve

/-! ## Data model (types of `github.com/mattermost/platform/model` the bot uses) -/

/-- The error value of an API call (`model.AppError`), with the three fields `printError` prints. -/
structure AppError where
  Message : String
  Id : String
  DetailedError : String
  deriving DecidableEq, Repr

/-- A channel (`model.Channel`): the fields `main.go` reads or writes, plus the team id.
The Go field `Type` is spelled `Type_` here. -/
structure Channel where
  Id : String := ""
  TeamId : String := ""
  Type_ : String := ""
  DisplayName : String := ""
  Name : String := ""
  Purpose : String := ""
  deriving DecidableEq, Repr

/-- A user (`model.User`): the fields `main.go` reads or writes, plus email and nickname
standing for the fields it never touches. -/
structure User where
  Id : String := ""
  Username : String := ""
  Email : String := ""
  Nickname : String := ""
  FirstName : String := ""
  LastName : String := ""
  deriving DecidableEq, Repr

/-- A team (`model.Team`). -/
structure Team where
  Id : String := ""
  DisplayName : String := ""
  Name : String := ""
  deriving DecidableEq, Repr

/-- A post (`model.Post`); `&model.Post{}` is the record of empty strings. -/
structure Post where
  Id : String := ""
  UserId : String := ""
  ChannelId : String := ""
  RootId : String := ""
  Message : String := ""
  deriving DecidableEq, Repr

/-- The initial bundle (`model.InitialLoad`); only `Teams` is read. -/
structure InitialLoad where
  Teams : List Team
  deriving DecidableEq, Repr

/-- An open event stream (`model.WebSocketClient`), identified by its url and auth token. -/
structure WebSocketClient where
  Url : String
  AuthToken : String
  deriving DecidableEq, Repr

/-- The broadcast part of an event (`model.WebsocketBroadcast`). -/
structure WebsocketBroadcast where
  UserId : String := ""
  ChannelId : String := ""
  TeamId : String := ""
  deriving DecidableEq, Repr

/-- A value of the payload map `map[string]interface{}`: a string, or anything else. -/
inductive DataValue where
  | str (s : String)
  | other
  deriving DecidableEq, Repr

/-- An inbound event (`model.WebSocketEvent`); `Broadcast` is a pointer in Go. -/
structure WebSocketEvent where
  Event : String
  Data : List (String × DataValue)
  Broadcast : Option WebsocketBroadcast
  deriving DecidableEq, Repr

/-- The constant `model.WEBSOCKET_EVENT_POSTED`. -/
def WEBSOCKET_EVENT_POSTED : String := "posted"

/-- The constant `model.CHANNEL_OPEN`. -/
def CHANNEL_OPEN : String := "O"

/-- The constant `robotName`. -/
def robotName : String := "EVE"

/-- The configuration (`opts`), after flag and ini parsing. -/
structure Opts where
  UserName : String := "eve"
  UserFirst : String := "Eve"
  UserLast : String := "Bot"
  UserEmail : String := "akagi201@gmail.com"
  UserPasswd : String := ""
  TeamName : String := "upmedia"
  MatterMostURL : String := "http://localhost:8065"
  ChannelLogName : String := "eve"
  deriving DecidableEq, Repr

/-! ## Regular expressions (the fragment of Go `regexp` the bot uses) -/

/-- The class `\w` of Go `regexp`: `[0-9A-Za-z_]`. -/
def isWordChar (c : Char) : Bool :=
  ('0' ≤ c && c ≤ '9') || ('A' ≤ c && c ≤ 'Z') || c == '_' || ('a' ≤ c && c ≤ 'z')

/-- Syntax trees of the patterns in `handleMsgFromDebuggingChannel`:
`^`, `$`, `\W`, a literal rune string, concatenation and alternation
(`(?:...)` only groups). -/
inductive Regex where
  | beginText
  | endText
  | notWord
  | literal (s : List Char)
  | concat (a b : Regex)
  | alternate (a b : Regex)
  deriving DecidableEq, Repr

/-- All ways a pattern matches at a position of the text.  A position is the pair of the
runes before it and the runes from it on; the result lists the positions where a match
starting here can end. -/
def Regex.matchAt : Regex → List Char × List Char → List (List Char × List Char)
  | .beginText, (pre, rest) => if pre = [] then [(pre, rest)] else []
  | .endText, (pre, rest) => if rest = [] then [(pre, rest)] else []
  | .notWord, (pre, rest) =>
    match rest with
    | [] => []
    | c :: cs => if isWordChar c then [] else [(pre ++ [c], cs)]
  | .literal s, (pre, rest) =>
    if s.isPrefixOf rest then [(pre ++ s, rest.drop s.length)] else []
  | .concat a b, p => (a.matchAt p).flatMap b.matchAt
  | .alternate a b, p => a.matchAt p ++ b.matchAt p

/-- Every position of a text, left to right: `(take i, drop i)` for `i = 0 .. length`. -/
def positions : List Char → List Char → List (List Char × List Char)
  | pre, [] => [(pre, [])]
  | pre, c :: cs => (pre, c :: cs) :: positions (pre ++ [c]) cs

/-- Unanchored search, `regexp.MatchString(pattern, s)` with a pattern that compiles:
the text matches when the pattern matches starting at some position. -/
def MatchString (re : Regex) (s : String) : Bool :=
  (positions [] s.data).any fun p => !(re.matchAt p).isEmpty

/-- The pattern `(?:^|\W)kw(?:$|\W)`. -/
def wordPattern (kw : String) : Regex :=
  .concat (.alternate .beginText .notWord)
    (.concat (.literal kw.data) (.alternate .endText .notWord))

/-! ## Program state, collaborators and observable behaviour -/

/-- The package-level variables of `main.go` that point to data; `none` is Go `nil`.
(`client` is the parameter `Client` of every function; `log` is never used after `init`.) -/
structure Globals where
  webSocketClient : Option WebSocketClient := none
  debuggingChannel : Option Channel := none
  botUser : Option User := none
  botTeam : Option Team := none
  initialLoad : Option InitialLoad := none
  deriving DecidableEq, Repr

/-- The Mattermost server seen through `model.Client` and `model.NewWebSocketClient`:
the answer of each call the bot makes. -/
structure Client where
  GetPing : Except AppError String
  Login : String → String → Except AppError User
  UpdateUser : User → Except AppError User
  GetInitialLoad : Except AppError InitialLoad
  GetChannels : String → Except AppError (List Channel)
  CreateChannel : Channel → Except AppError Channel
  CreatePost : Post → Except AppError Post
  AuthToken : String
  NewWebSocketClient : String → String → Except AppError WebSocketClient

/-- What the bot does to the outside world, in program order. -/
inductive Action where
  | println (s : String)
  | getPing
  | login (email passwd : String)
  | updateUser (u : User)
  | getInitialLoad
  | setTeamId (id : String)
  | getChannels (etag : String)
  | createChannel (c : Channel)
  | createPost (p : Post)
  | postFromJson (payload : String)
  | newWebSocketClient (url token : String)
  | wsClose (ws : WebSocketClient)
  | wsListen (ws : WebSocketClient)
  deriving DecidableEq, Repr

/-- The ways a function stops other than by returning. -/
inductive Halt where
  | exit (code : Nat)
  | nilDereference
  | typeAssertion
  deriving DecidableEq, Repr

/-- The outcome of running a function: globals afterwards, actions performed, and how it
stopped (`none`: it returned). -/
structure Result where
  globals : Globals
  trace : List Action
  halt : Option Halt
  deriving DecidableEq, Repr

/-- Sequencing of statements: the rest runs only when the first part returned. -/
def Result.andThen (r : Result) (k : Globals → Result) : Result :=
  match r.halt with
  | some _ => r
  | none => ⟨(k r.globals).globals, r.trace ++ (k r.globals).trace, (k r.globals).halt⟩

/-- The posts handed to `client.CreatePost`, in order. -/
def outboundPosts : List Action → List Post
  | [] => []
  | .createPost p :: as => p :: outboundPosts as
  | _ :: as => outboundPosts as

/-- The channels handed to `client.CreateChannel`, in order. -/
def createChannelCalls : List Action → List Channel
  | [] => []
  | .createChannel c :: as => c :: createChannelCalls as
  | _ :: as => createChannelCalls as

/-- The users handed to `client.UpdateUser`, in order. -/
def updateUserCalls : List Action → List User
  | [] => []
  | .updateUser u :: as => u :: updateUserCalls as
  | _ :: as => updateUserCalls as

/-- The payloads handed to `model.PostFromJson`, in order. -/
def decodedPayloads : List Action → List String
  | [] => []
  | .postFromJson s :: as => s :: decodedPayloads as
  | _ :: as => decodedPayloads as

/-- The event streams closed, in order. -/
def closedStreams : List Action → List WebSocketClient
  | [] => []
  | .wsClose w :: as => w :: closedStreams as
  | _ :: as => closedStreams as

/-! ## The functions of `main.go` -/

/-- The lines `printError` prints. -/
def printError (err : AppError) : List Action :=
  [.println "\tError Details:", .println ("\t\t" ++ err.Message),
   .println ("\t\t" ++ err.Id), .println ("\t\t" ++ err.DetailedError)]

/-- `sendMsgToDebuggingChannel(msg, replyToId)`: reading `debuggingChannel.Id` is a nil
dereference when the logging channel is unset. -/
def sendMsgToDebuggingChannel (client : Client) (msg replyToId : String) (g : Globals) : Result :=
  match g.debuggingChannel with
  | none => ⟨g, [], some .nilDereference⟩
  | some ch =>
    let post : Post := { ChannelId := ch.Id, Message := msg, RootId := replyToId }
    match client.CreatePost post with
    | .error err =>
      ⟨g, [.createPost post, .println "We failed to send a message to the logging channel"]
            ++ printError err, none⟩
    | .ok _ => ⟨g, [.createPost post], none⟩

/-- The body of the signal loop of `setupGracefulShutdown`, run for one interrupt. -/
def shutdownHandler (client : Client) (g : Globals) : Result :=
  let closing : List Action :=
    match g.webSocketClient with
    | some ws => [.wsClose ws]
    | none => []
  (Result.mk g closing none).andThen fun g =>
  (sendMsgToDebuggingChannel client ("_" ++ robotName ++ " has **stopped** running_") "" g).andThen
    fun g => ⟨g, [], some (.exit 0)⟩

/-- `makeSureServerIsRunning`. -/
def makeSureServerIsRunning (client : Client) (g : Globals) : Result :=
  match client.GetPing with
  | .error err =>
    ⟨g, [.getPing, .println "There was a problem pinging the Mattermost server.  Are you sure it's running?"]
          ++ printError err, some (.exit 1)⟩
  | .ok version => ⟨g, [.getPing, .println ("Server detected and is running version " ++ version)], none⟩

/-- `loginAsTheBotUser`. -/
def loginAsTheBotUser (client : Client) (opts : Opts) (g : Globals) : Result :=
  match client.Login opts.UserEmail opts.UserPasswd with
  | .error err =>
    ⟨g, [.login opts.UserEmail opts.UserPasswd, .println "There was a problem logging into the Mattermost server.  Are you sure ran the setup steps from the README.md?"]
          ++ printError err, some (.exit 1)⟩
  | .ok u => ⟨{ g with botUser := some u }, [.login opts.UserEmail opts.UserPasswd], none⟩

/-- `updateTheBotUserIfNeeded`. -/
def updateTheBotUserIfNeeded (client : Client) (opts : Opts) (g : Globals) : Result :=
  match g.botUser with
  | none => ⟨g, [], some .nilDereference⟩
  | some u =>
    if u.FirstName ≠ opts.UserFirst ∨ u.LastName ≠ opts.UserLast ∨ u.Username ≠ opts.UserName then
      let u1 : User :=
        { u with FirstName := opts.UserFirst, LastName := opts.UserLast, Username := opts.UserName }
      let g1 : Globals := { g with botUser := some u1 }
      match client.UpdateUser u1 with
      | .error err =>
        ⟨g1, [.updateUser u1, .println "We failed to update the Sample Bot user"] ++ printError err,
          some (.exit 1)⟩
      | .ok u2 =>
        ⟨{ g1 with botUser := some u2 },
          [.updateUser u1, .println "Looks like this might be the first run so we've updated the bots account settings"],
          none⟩
    else ⟨g, [], none⟩

/-- `initialLoads`. -/
def initialLoads (client : Client) (g : Globals) : Result :=
  match client.GetInitialLoad with
  | .error err =>
    ⟨g, [.getInitialLoad, .println "We failed to get the initial load"] ++ printError err,
      some (.exit 1)⟩
  | .ok il => ⟨{ g with initialLoad := some il }, [.getInitialLoad], none⟩

/-- The loop of `findBotTeam`: assign the first team with the configured name and break. -/
def findBotTeamLoop (opts : Opts) : List Team → Globals → Globals
  | [], g => g
  | team :: teams, g =>
    if team.Name = opts.TeamName then { g with botTeam := some team }
    else findBotTeamLoop opts teams g

/-- `findBotTeam`. -/
def findBotTeam (opts : Opts) (g : Globals) : Result :=
  match g.initialLoad with
  | none => ⟨g, [], some .nilDereference⟩
  | some il =>
    let g1 := findBotTeamLoop opts il.Teams g
    if g1.botTeam = none then
      ⟨g1, [.println ("We do not appear to be a member of the team '" ++ opts.TeamName ++ "'")],
        some (.exit 1)⟩
    else ⟨g1, [], none⟩

/-- The loop of `createBotDebuggingChannelIfNeeded`: the first channel with the configured
name, on which the function assigns and returns. -/
def findLoggingChannel (opts : Opts) : List Channel → Option Channel
  | [] => none
  | channel :: channels =>
    if channel.Name = opts.ChannelLogName then some channel
    else findLoggingChannel opts channels

/-- The second half of `createBotDebuggingChannelIfNeeded`: create the logging channel. -/
def createLoggingChannel (client : Client) (opts : Opts) (g : Globals) : Result :=
  let channel : Channel :=
    { Name := opts.ChannelLogName
      DisplayName := "Debugging For Sample Bot"
      Purpose := "This is used as a test channel for logging bot debug messages"
      Type_ := CHANNEL_OPEN }
  match client.CreateChannel channel with
  | .error err =>
    ⟨g, [.createChannel channel, .println ("We failed to create the channel " ++ opts.ChannelLogName)]
          ++ printError err, none⟩
  | .ok created =>
    ⟨{ g with debuggingChannel := some created },
      [.createChannel channel,
       .println ("Looks like this might be the first run so we've created the channel " ++ opts.ChannelLogName)],
      none⟩

/-- `createBotDebuggingChannelIfNeeded`. -/
def createBotDebuggingChannelIfNeeded (client : Client) (opts : Opts) (g : Globals) : Result :=
  match client.GetChannels "" with
  | .error err =>
    (Result.mk g ([.getChannels "", .println "We failed to get the channels"] ++ printError err) none).andThen
      (createLoggingChannel client opts)
  | .ok channelList =>
    match findLoggingChannel opts channelList with
    | some channel => ⟨{ g with debuggingChannel := some channel }, [.getChannels ""], none⟩
    | none => (Result.mk g [.getChannels ""] none).andThen (createLoggingChannel client opts)

/-- The reply chosen inside the guard `if post != nil` of `handleMsgFromDebuggingChannel`:
`some r` when the guarded block returns with outcome `r`, `none` when control falls
through to the last statement of the function. -/
def replyInsideGuard (client : Client) (post : Post) (g : Globals) : Option Result :=
  match g.botUser with
  | none => some ⟨g, [], some .nilDereference⟩
  | some me =>
    if post.UserId = me.Id then some ⟨g, [], none⟩
    else if MatchString (wordPattern "alive") post.Message then
      some (sendMsgToDebuggingChannel client "Yes I'm running" post.Id g)
    else if MatchString (wordPattern "up") post.Message then
      some (sendMsgToDebuggingChannel client "Yes I'm running" post.Id g)
    else if MatchString (wordPattern "running") post.Message then
      some (sendMsgToDebuggingChannel client "Yes I'm running" post.Id g)
    else if MatchString (wordPattern "hello") post.Message then
      some (sendMsgToDebuggingChannel client "Yes I'm running" post.Id g)
    else none

/-- The statements of `handleMsgFromDebuggingChannel` from the decoded post on: the guarded
block, then `sendMsgToDebuggingChannel("I did not understand you!", post.Id)`, whose
argument `post.Id` is a nil dereference when the post is absent. -/
def replyToPost (client : Client) (post : Option Post) (g : Globals) : Result :=
  let guarded : Option Result :=
    match post with
    | some p => replyInsideGuard client p g
    | none => none
  match guarded with
  | some r => r
  | none =>
    match post with
    | none => ⟨g, [], some .nilDereference⟩
    | some p => sendMsgToDebuggingChannel client "I did not understand you!" p.Id g

/-- `handleMsgFromDebuggingChannel(event)`.  `PostFromJson` is the decoder of the Mattermost
library, which yields `nil` for a payload that does not decode. -/
def handleMsgFromDebuggingChannel (client : Client) (PostFromJson : String → Option Post)
    (event : WebSocketEvent) (g : Globals) : Result :=
  match event.Broadcast with
  | none => ⟨g, [], some .nilDereference⟩
  | some broadcast =>
    match g.debuggingChannel with
    | none => ⟨g, [], some .nilDereference⟩
    | some ch =>
      if broadcast.ChannelId ≠ ch.Id then ⟨g, [], none⟩
      else if event.Event ≠ WEBSOCKET_EVENT_POSTED then ⟨g, [], none⟩
      else
        (Result.mk g [.println "responding to debugging channel msg"] none).andThen fun g =>
        match event.Data.lookup "post" with
        | some (.str payload) =>
          (Result.mk g [.postFromJson payload] none).andThen
            (replyToPost client (PostFromJson payload))
        | _ => ⟨g, [], some .typeAssertion⟩

/-- `handleWebSocketResponse(event)`. -/
def handleWebSocketResponse (client : Client) (PostFromJson : String → Option Post)
    (event : WebSocketEvent) (g : Globals) : Result :=
  handleMsgFromDebuggingChannel client PostFromJson event g

/-- The bootstrap of `main` after option parsing, up to the startup announcement
(`setupGracefulShutdown` only registers the handler). -/
def mainBootstrap (client : Client) (opts : Opts) : Result :=
  ((((((makeSureServerIsRunning client {}).andThen
    (loginAsTheBotUser client opts)).andThen
    (updateTheBotUserIfNeeded client opts)).andThen
    (initialLoads client)).andThen
    (findBotTeam opts)).andThen
    (fun g =>
      match g.botTeam with
      | none => ⟨g, [], some .nilDereference⟩
      | some team => ⟨g, [.setTeamId team.Id], none⟩)).andThen
    (fun g =>
      (createBotDebuggingChannelIfNeeded client opts g).andThen
        (sendMsgToDebuggingChannel client ("_" ++ robotName ++ " has **started** running_") ""))

/-- `main` after option parsing, through `webSocketClient.Listen()`.  The second component
is the variable `webSocketClient` that `main` declares with `:=`, local to `main`; the
package-level `webSocketClient` in the globals is not assigned.  `Listen` on a nil client
reads through the nil pointer. -/
def main (client : Client) (opts : Opts) : Result × Option WebSocketClient :=
  let r := mainBootstrap client opts
  match r.halt with
  | some _ => (r, none)
  | none =>
    match client.NewWebSocketClient "ws://localhost:8065" client.AuthToken with
    | .error appErr =>
      (⟨r.globals,
        r.trace ++ [.newWebSocketClient "ws://localhost:8065" client.AuthToken,
                    .println "We failed to connect to the web socket"] ++ printError appErr,
        some .nilDereference⟩, none)
    | .ok ws =>
      (⟨r.globals,
        r.trace ++ [.newWebSocketClient "ws://localhost:8065" client.AuthToken, .wsListen ws],
        none⟩, some ws)

/-! ## Specification-level notions -/

/-- The text contains the keyword as a whole word: an occurrence whose preceding rune, if
any, and following rune, if any, are both outside `[0-9A-Za-z_]`. -/
def ContainsWholeWord (kw text : List Char) : Prop :=
  ∃ before after, text = before ++ kw ++ after ∧
    (∀ c, before.getLast? = some c → isWordChar c = false) ∧
    (∀ c, after.head? = some c → isWordChar c = false)

/-- The text contains one of `alive`, `up`, `running`, `hello` as a whole word. -/
def ContainsKeyword (text : String) : Prop :=
  ContainsWholeWord "alive".data text.data ∨ ContainsWholeWord "up".data text.data ∨
    ContainsWholeWord "running".data text.data ∨ ContainsWholeWord "hello".data text.data

/-- The test that `(?:$|\W)` makes on the runes after the keyword. -/
def endOK : List Char → Bool
  | [] => true
  | d :: _ => !isWordChar d

/-! ## Sample collaborators for concrete runs -/

/-- The fields of a text separated by `|`; the first argument collects the current field. -/
def splitBar : List Char → List Char → List (List Char)
  | field, [] => [field]
  | field, c :: cs => if c = '|' then field :: splitBar [] cs else splitBar (field ++ [c]) cs

/-- A decoder for concrete runs: the payload `id|author|message` decodes to a post, anything
else does not decode. -/
def sampleDecoder (payload : String) : Option Post :=
  match splitBar [] payload.data with
  | [id, author, message] =>
    some { Id := String.mk id, UserId := String.mk author, Message := String.mk message }
  | _ => none

/-- A server on which every call succeeds; it knows the bot user `bot1`, the team `upmedia`
and the channels `town-square` and `eve`. -/
def sampleClient : Client where
  GetPing := .ok "3.6.0"
  Login := fun email _ =>
    .ok { Id := "bot1", Username := "eve", Email := email, FirstName := "Eve", LastName := "Bot" }
  UpdateUser := fun u => .ok u
  GetInitialLoad := .ok ⟨[{ Id := "t0", Name := "other" }, { Id := "t1", Name := "upmedia" }]⟩
  GetChannels := fun _ =>
    .ok [{ Id := "c0", Name := "town-square" }, { Id := "c1", Name := "eve" }]
  CreateChannel := fun c => .ok { c with Id := "c9" }
  CreatePost := fun p => .ok { p with Id := "p9" }
  AuthToken := "token"
  NewWebSocketClient := fun url token => .ok ⟨url, token⟩

/-- A server as `sampleClient`, except that no channel is named `eve` and channel creation
fails. -/
def noChannelClient : Client :=
  { sampleClient with
    GetChannels := fun _ => .ok [{ Id := "c0", Name := "town-square" }]
    CreateChannel := fun _ => .error ⟨"create failed", "api.channel.create", "forbidden"⟩ }

/-- Globals after a successful bootstrap against `sampleClient`. -/
def sampleGlobals : Globals :=
  { debuggingChannel := some { Id := "c1", Name := "eve" }
    botUser := some { Id := "bot1", Username := "eve", FirstName := "Eve", LastName := "Bot" } }

/-- A `posted` event on channel `c1` carrying the given payload. -/
def postedEvent (payload : String) : WebSocketEvent :=
  { Event := "posted", Data := [("post", .str payload)], Broadcast := some { ChannelId := "c1" } }

/-! ## Lemmas on the regular-expression matcher -/

theorem endOK_iff (l : List Char) :
    endOK l = true ↔ ∀ c, l.head? = some c → isWordChar c = false := by
  cases l with
  | nil => simp [endOK]
  | cons d t => simp [endOK]

theorem matchAt_end (p l : List Char) :
    ((Regex.alternate .endText .notWord).matchAt (p, l)).isEmpty = !endOK l := by
  cases l with
  | nil => simp [Regex.matchAt, endOK]
  | cons d t =>
    cases h : isWordChar d <;> simp [Regex.matchAt, endOK, h]

theorem isEmpty_append_eq {α : Type} (a b : List α) :
    (a ++ b).isEmpty = (a.isEmpty && b.isEmpty) := by
  cases a <;> simp

theorem matchAt_keyword (kw p l : List Char) :
    ((Regex.concat (.literal kw) (.alternate .endText .notWord)).matchAt (p, l)).isEmpty = false ↔
      ∃ suf, l = kw ++ suf ∧ endOK suf = true := by
  rw [Regex.matchAt]
  have hl : (Regex.literal kw).matchAt (p, l) =
      if kw.isPrefixOf l then [(p ++ kw, l.drop kw.length)] else [] := by
    simp [Regex.matchAt]
  rw [hl]
  by_cases h : kw.isPrefixOf l = true
  · obtain ⟨suf, rfl⟩ := List.isPrefixOf_iff_prefix.mp h
    simp only [h, if_true, List.flatMap_cons, List.flatMap_nil, List.append_nil,
      List.drop_left, matchAt_end]
    simp
  · have h2 : ¬ ∃ suf, l = kw ++ suf ∧ endOK suf = true := by
      rintro ⟨suf, rfl, -⟩
      exact h (List.isPrefixOf_iff_prefix.mpr ⟨suf, rfl⟩)
    simp [h, h2]

theorem matchAt_wordPattern (kw : String) (p l : List Char) :
    ((wordPattern kw).matchAt (p, l)).isEmpty = false ↔
      (p = [] ∧ ∃ suf, l = kw.data ++ suf ∧ endOK suf = true) ∨
      (∃ c suf, l = c :: (kw.data ++ suf) ∧ isWordChar c = false ∧ endOK suf = true) := by
  unfold wordPattern
  rw [Regex.matchAt]
  have hl : (Regex.alternate .beginText .notWord).matchAt (p, l) =
      (if p = [] then [(p, l)] else []) ++
        (match l with
          | [] => []
          | c :: cs => if isWordChar c then [] else [(p ++ [c], cs)]) := by
    simp [Regex.matchAt]
  rw [hl, List.flatMap_append, isEmpty_append_eq, Bool.and_eq_false_iff]
  apply or_congr
  · by_cases hp : p = []
    · simp only [hp, if_true, List.flatMap_cons, List.flatMap_nil, List.append_nil, true_and]
      exact matchAt_keyword _ _ _
    · simp [hp]
  · cases l with
    | nil => simp
    | cons c cs =>
      cases hc : isWordChar c
      · simp only [hc, Bool.false_eq_true, if_false, List.flatMap_cons, List.flatMap_nil,
          List.append_nil, List.cons.injEq]
        rw [matchAt_keyword]
        constructor
        · rintro ⟨suf, rfl, h⟩
          exact ⟨c, suf, ⟨rfl, rfl⟩, hc, h⟩
        · rintro ⟨c2, suf, ⟨rfl, rfl⟩, -, h⟩
          exact ⟨suf, rfl, h⟩
      · simp only [hc, if_true, List.flatMap_nil, List.isEmpty_nil, Bool.true_eq_false, false_iff]
        rintro ⟨c2, suf, h, h2, -⟩
        simp only [List.cons.injEq] at h
        rw [← h.1, hc] at h2
        exact Bool.noConfusion h2

theorem mem_positions (q : List Char × List Char) (pre rest : List Char) :
    q ∈ positions pre rest ↔ ∃ a b, rest = a ++ b ∧ q = (pre ++ a, b) := by
  induction rest generalizing pre with
  | nil =>
    simp only [positions, List.mem_singleton]
    constructor
    · rintro rfl
      exact ⟨[], [], rfl, by simp⟩
    · rintro ⟨a, b, h, rfl⟩
      have h2 := List.append_eq_nil.mp h.symm
      simp [h2.1, h2.2]
  | cons c cs ih =>
    simp only [positions, List.mem_cons, ih]
    constructor
    · rintro (rfl | ⟨a, b, rfl, rfl⟩)
      · exact ⟨[], c :: cs, rfl, by simp⟩
      · exact ⟨c :: a, b, rfl, by simp⟩
    · rintro ⟨a, b, h, rfl⟩
      cases a with
      | nil =>
        left
        simp only [List.nil_append] at h
        simp [h]
      | cons d a =>
        right
        simp only [List.cons_append, List.cons.injEq] at h
        exact ⟨a, b, h.2, by simp [h.1]⟩

/-- The search for `(?:^|\W)kw(?:$|\W)` succeeds exactly on the texts that contain `kw` as a
whole word. -/
theorem MatchString_wordPattern (kw s : String) :
    MatchString (wordPattern kw) s = true ↔ ContainsWholeWord kw.data s.data := by
  unfold MatchString ContainsWholeWord
  rw [List.any_eq_true]
  constructor
  · rintro ⟨⟨p, l⟩, hq, hm⟩
    obtain ⟨a, b, hs, hab⟩ := (mem_positions _ _ _).mp hq
    simp only [List.nil_append, Prod.mk.injEq] at hab
    obtain ⟨rfl, rfl⟩ := hab
    have hm2 : ((wordPattern kw).matchAt (p, l)).isEmpty = false := by simpa using hm
    rcases (matchAt_wordPattern kw p l).mp hm2 with ⟨rfl, suf, rfl, he⟩ | ⟨c, suf, rfl, hc, he⟩
    · exact ⟨[], suf, by simpa using hs, by simp, (endOK_iff suf).mp he⟩
    · refine ⟨p ++ [c], suf, by simpa using hs, ?_, (endOK_iff suf).mp he⟩
      intro d hd
      have hd2 : some c = some d := by simpa [Option.or] using hd
      rw [← Option.some.inj hd2]; exact hc
  · rintro ⟨before, after, hs, hb, ha⟩
    rcases List.eq_nil_or_concat before with rfl | ⟨a, c, rfl⟩
    · refine ⟨([], s.data), (mem_positions _ _ _).mpr ⟨[], s.data, rfl, rfl⟩, ?_⟩
      have := (matchAt_wordPattern kw [] s.data).mpr
        (Or.inl ⟨rfl, after, by simpa using hs, (endOK_iff after).mpr ha⟩)
      simp [this]
    · have hc : isWordChar c = false := hb c (by simp)
      refine ⟨(a, c :: (kw.data ++ after)),
        (mem_positions _ _ _).mpr ⟨a, c :: (kw.data ++ after), by simpa using hs, by simp⟩, ?_⟩
      have := (matchAt_wordPattern kw a (c :: (kw.data ++ after))).mpr
        (Or.inr ⟨c, after, rfl, hc, (endOK_iff after).mpr ha⟩)
      simp [this]

/-! ## Lemmas on sending and on the reply engine -/

theorem outboundPosts_printError (err : AppError) : outboundPosts (printError err) = [] := rfl

/-- With the logging channel set, a send hands exactly one post to the server and returns. -/
theorem sendMsgToDebuggingChannel_set (client : Client) (msg replyToId : String) (g : Globals)
    (ch : Channel) (hch : g.debuggingChannel = some ch) :
    outboundPosts (sendMsgToDebuggingChannel client msg replyToId g).trace =
        [{ ChannelId := ch.Id, Message := msg, RootId := replyToId }] ∧
      (sendMsgToDebuggingChannel client msg replyToId g).halt = none ∧
      (sendMsgToDebuggingChannel client msg replyToId g).globals = g := by
  unfold sendMsgToDebuggingChannel
  rw [hch]
  cases h : client.CreatePost { ChannelId := ch.Id, Message := msg, RootId := replyToId } <;>
    simp [h, outboundPosts, printError]

/-- With the logging channel unset, a send stops at the nil dereference before any call. -/
theorem sendMsgToDebuggingChannel_unset (client : Client) (msg replyToId : String) (g : Globals)
    (hch : g.debuggingChannel = none) :
    sendMsgToDebuggingChannel client msg replyToId g = ⟨g, [], some .nilDereference⟩ := by
  unfold sendMsgToDebuggingChannel
  rw [hch]

theorem containsKeyword_iff (text : String) :
    ContainsKeyword text ↔
      (MatchString (wordPattern "alive") text = true ∨ MatchString (wordPattern "up") text = true ∨
        MatchString (wordPattern "running") text = true ∨
        MatchString (wordPattern "hello") text = true) := by
  unfold ContainsKeyword
  simp only [MatchString_wordPattern]

theorem replyInsideGuard_keyword (client : Client) (post : Post) (g : Globals) (me : User)
    (hme : g.botUser = some me) (hauthor : post.UserId ≠ me.Id)
    (hkw : ContainsKeyword post.Message) :
    replyInsideGuard client post g =
      some (sendMsgToDebuggingChannel client "Yes I'm running" post.Id g) := by
  unfold replyInsideGuard
  rw [hme]
  simp only [hauthor, if_false]
  rcases (containsKeyword_iff _).mp hkw with h | h | h | h
  · simp [h]
  · by_cases h1 : MatchString (wordPattern "alive") post.Message = true <;> simp [h, h1]
  · by_cases h1 : MatchString (wordPattern "alive") post.Message = true <;>
      by_cases h2 : MatchString (wordPattern "up") post.Message = true <;> simp [h, h1, h2]
  · by_cases h1 : MatchString (wordPattern "alive") post.Message = true <;>
      by_cases h2 : MatchString (wordPattern "up") post.Message = true <;>
      by_cases h3 : MatchString (wordPattern "running") post.Message = true <;>
      simp [h, h1, h2, h3]

theorem replyInsideGuard_no_keyword (client : Client) (post : Post) (g : Globals) (me : User)
    (hme : g.botUser = some me) (hauthor : post.UserId ≠ me.Id)
    (hkw : ¬ ContainsKeyword post.Message) :
    replyInsideGuard client post g = none := by
  unfold replyInsideGuard
  rw [hme]
  rw [containsKeyword_iff] at hkw
  simp only [not_or] at hkw
  obtain ⟨h1, h2, h3, h4⟩ := hkw
  simp [hauthor, h1, h2, h3, h4]

theorem replyInsideGuard_self (client : Client) (post : Post) (g : Globals) (me : User)
    (hme : g.botUser = some me) (hauthor : post.UserId = me.Id) :
    replyInsideGuard client post g = some ⟨g, [], none⟩ := by
  unfold replyInsideGuard
  rw [hme]
  simp [hauthor]

/-- The handler on an event that passes both filters and carries a string payload. -/
theorem handleMsg_routed (client : Client) (PostFromJson : String → Option Post)
    (event : WebSocketEvent) (g : Globals) (ch : Channel) (b : WebsocketBroadcast)
    (payload : String)
    (hch : g.debuggingChannel = some ch) (hb : event.Broadcast = some b)
    (hid : b.ChannelId = ch.Id) (hkind : event.Event = WEBSOCKET_EVENT_POSTED)
    (hdata : event.Data.lookup "post" = some (.str payload)) :
    handleMsgFromDebuggingChannel client PostFromJson event g =
      ⟨(replyToPost client (PostFromJson payload) g).globals,
        [.println "responding to debugging channel msg", .postFromJson payload] ++
          (replyToPost client (PostFromJson payload) g).trace,
        (replyToPost client (PostFromJson payload) g).halt⟩ := by
  unfold handleMsgFromDebuggingChannel
  simp [hch, hb, hid, hkind, hdata, Result.andThen]

/-! ## The claims -/

/-- C1: an event on the logging channel, of kind `posted`, whose payload decodes to a post by
someone other than the bot and whose message contains one of `alive`, `up`, `running`,
`hello` as a whole word, makes the handler create exactly one post, with message
"Yes I'm running", `RootId` the triggering post's id and `ChannelId` the logging channel's
id, and return; whichever and however many keywords occur. -/
theorem handleMsg_keyword_reply (client : Client) (PostFromJson : String → Option Post)
    (event : WebSocketEvent) (g : Globals) (ch : Channel) (me : User) (b : WebsocketBroadcast)
    (payload : String) (post : Post)
    (hch : g.debuggingChannel = some ch) (hme : g.botUser = some me)
    (hb : event.Broadcast = some b) (hid : b.ChannelId = ch.Id)
    (hkind : event.Event = WEBSOCKET_EVENT_POSTED)
    (hdata : event.Data.lookup "post" = some (.str payload))
    (hpost : PostFromJson payload = some post)
    (hauthor : post.UserId ≠ me.Id) (hkw : ContainsKeyword post.Message) :
    outboundPosts (handleMsgFromDebuggingChannel client PostFromJson event g).trace =
        [{ ChannelId := ch.Id, Message := "Yes I'm running", RootId := post.Id }] ∧
      (handleMsgFromDebuggingChannel client PostFromJson event g).halt = none := by
  rw [handleMsg_routed client PostFromJson event g ch b payload hch hb hid hkind hdata, hpost]
  have hs := sendMsgToDebuggingChannel_set client "Yes I'm running" post.Id g ch hch
  simp only [replyToPost, replyInsideGuard_keyword client post g me hme hauthor hkw]
  exact ⟨by simpa [outboundPosts] using hs.1, hs.2.1⟩

/-- C1 on "hey are you alive?" and on "up hello". -/
theorem handleMsg_keyword_reply_witness :
    (outboundPosts (handleMsgFromDebuggingChannel sampleClient sampleDecoder
        (postedEvent "p1|u2|hey are you alive?") sampleGlobals).trace =
        [{ ChannelId := "c1", Message := "Yes I'm running", RootId := "p1" }] ∧
      (handleMsgFromDebuggingChannel sampleClient sampleDecoder
        (postedEvent "p1|u2|hey are you alive?") sampleGlobals).halt = none) ∧
    (outboundPosts (handleMsgFromDebuggingChannel sampleClient sampleDecoder
        (postedEvent "p2|u2|up hello") sampleGlobals).trace =
        [{ ChannelId := "c1", Message := "Yes I'm running", RootId := "p2" }] ∧
      (handleMsgFromDebuggingChannel sampleClient sampleDecoder
        (postedEvent "p2|u2|up hello") sampleGlobals).halt = none) :=
  ⟨handleMsg_keyword_reply sampleClient sampleDecoder (postedEvent "p1|u2|hey are you alive?")
      sampleGlobals { Id := "c1", Name := "eve" }
      { Id := "bot1", Username := "eve", FirstName := "Eve", LastName := "Bot" }
      { ChannelId := "c1" } "p1|u2|hey are you alive?"
      { Id := "p1", UserId := "u2", Message := "hey are you alive?" }
      rfl rfl rfl rfl rfl (by decide) (by decide) (by decide)
      ((containsKeyword_iff _).mpr (Or.inl (by decide))),
   handleMsg_keyword_reply sampleClient sampleDecoder (postedEvent "p2|u2|up hello")
      sampleGlobals { Id := "c1", Name := "eve" }
      { Id := "bot1", Username := "eve", FirstName := "Eve", LastName := "Bot" }
      { ChannelId := "c1" } "p2|u2|up hello"
      { Id := "p2", UserId := "u2", Message := "up hello" }
      rfl rfl rfl rfl rfl (by decide) (by decide) (by decide)
      ((containsKeyword_iff _).mpr (Or.inr (Or.inl (by decide))))⟩

/-- C2: an event that passes the channel and kind filters, whose payload decodes to a post by
someone other than the bot and whose message contains none of `alive`, `up`, `running`,
`hello` as a whole word (case-sensitively), makes the handler create exactly one post, with
message "I did not understand you!", `RootId` the triggering post's id and `ChannelId` the
logging channel's id, and return. -/
theorem handleMsg_fallback_reply (client : Client) (PostFromJson : String → Option Post)
    (event : WebSocketEvent) (g : Globals) (ch : Channel) (me : User) (b : WebsocketBroadcast)
    (payload : String) (post : Post)
    (hch : g.debuggingChannel = some ch) (hme : g.botUser = some me)
    (hb : event.Broadcast = some b) (hid : b.ChannelId = ch.Id)
    (hkind : event.Event = WEBSOCKET_EVENT_POSTED)
    (hdata : event.Data.lookup "post" = some (.str payload))
    (hpost : PostFromJson payload = some post)
    (hauthor : post.UserId ≠ me.Id) (hkw : ¬ ContainsKeyword post.Message) :
    outboundPosts (handleMsgFromDebuggingChannel client PostFromJson event g).trace =
        [{ ChannelId := ch.Id, Message := "I did not understand you!", RootId := post.Id }] ∧
      (handleMsgFromDebuggingChannel client PostFromJson event g).halt = none := by
  rw [handleMsg_routed client PostFromJson event g ch b payload hch hb hid hkind hdata, hpost]
  have hs := sendMsgToDebuggingChannel_set client "I did not understand you!" post.Id g ch hch
  simp only [replyToPost, replyInsideGuard_no_keyword client post g me hme hauthor hkw]
  exact ⟨by simpa [outboundPosts] using hs.1, hs.2.1⟩

/-- C2 on "aliveness check", and the texts "Alive" and "are_you_alive" contain no keyword. -/
theorem handleMsg_fallback_reply_witness :
    (outboundPosts (handleMsgFromDebuggingChannel sampleClient sampleDecoder
        (postedEvent "p1|u2|aliveness check") sampleGlobals).trace =
        [{ ChannelId := "c1", Message := "I did not understand you!", RootId := "p1" }] ∧
      (handleMsgFromDebuggingChannel sampleClient sampleDecoder
        (postedEvent "p1|u2|aliveness check") sampleGlobals).halt = none) ∧
    ¬ ContainsKeyword "Alive" ∧ ¬ ContainsKeyword "are_you_alive" :=
  ⟨handleMsg_fallback_reply sampleClient sampleDecoder (postedEvent "p1|u2|aliveness check")
      sampleGlobals { Id := "c1", Name := "eve" }
      { Id := "bot1", Username := "eve", FirstName := "Eve", LastName := "Bot" }
      { ChannelId := "c1" } "p1|u2|aliveness check"
      { Id := "p1", UserId := "u2", Message := "aliveness check" }
      rfl rfl rfl rfl rfl (by decide) (by decide) (by decide)
      (fun h => absurd ((containsKeyword_iff _).mp h) (by decide)),
   fun h => absurd ((containsKeyword_iff _).mp h) (by decide),
   fun h => absurd ((containsKeyword_iff _).mp h) (by decide)⟩

/-- C3: when the payload of an event decodes to a post whose author is the bot itself, the
handler creates no post, whatever the message text is, and leaves the globals unchanged;
on an event that carries a broadcast, with the logging channel set, it returns normally. -/
theorem handleMsg_self_filter (client : Client) (PostFromJson : String → Option Post)
    (event : WebSocketEvent) (g : Globals) (me : User) (payload : String) (post : Post)
    (hme : g.botUser = some me)
    (hdata : event.Data.lookup "post" = some (.str payload))
    (hpost : PostFromJson payload = some post)
    (hauthor : post.UserId = me.Id) :
    outboundPosts (handleMsgFromDebuggingChannel client PostFromJson event g).trace = [] ∧
      (handleMsgFromDebuggingChannel client PostFromJson event g).globals = g ∧
      (g.debuggingChannel ≠ none → event.Broadcast ≠ none →
        (handleMsgFromDebuggingChannel client PostFromJson event g).halt = none) := by
  unfold handleMsgFromDebuggingChannel
  cases hb : event.Broadcast with
  | none => simp [outboundPosts]
  | some b =>
    cases hch : g.debuggingChannel with
    | none => simp [outboundPosts]
    | some ch =>
      by_cases hid : b.ChannelId = ch.Id
      · by_cases hkind : event.Event = WEBSOCKET_EVENT_POSTED
        · simp [hid, hkind, hdata, hpost, Result.andThen, replyToPost,
            replyInsideGuard_self client post g me hme hauthor, outboundPosts]
        · simp [hid, hkind, outboundPosts]
      · simp [hid, outboundPosts]

/-- C3 on a post by the bot whose text contains a keyword. -/
theorem handleMsg_self_filter_witness :
    outboundPosts (handleMsgFromDebuggingChannel sampleClient sampleDecoder
        (postedEvent "p1|bot1|alive") sampleGlobals).trace = [] ∧
      (handleMsgFromDebuggingChannel sampleClient sampleDecoder
        (postedEvent "p1|bot1|alive") sampleGlobals).globals = sampleGlobals ∧
      (sampleGlobals.debuggingChannel ≠ none → (postedEvent "p1|bot1|alive").Broadcast ≠ none →
        (handleMsgFromDebuggingChannel sampleClient sampleDecoder
          (postedEvent "p1|bot1|alive") sampleGlobals).halt = none) :=
  handleMsg_self_filter sampleClient sampleDecoder (postedEvent "p1|bot1|alive") sampleGlobals
    { Id := "bot1", Username := "eve", FirstName := "Eve", LastName := "Bot" }
    "p1|bot1|alive" { Id := "p1", UserId := "bot1", Message := "alive" }
    rfl (by decide) (by decide) rfl

/-- C4: when the broadcast channel id of an event differs from the logging channel's id, or
its kind is not `posted`, `handleWebSocketResponse` returns at once: it performs no action
at all (no post is created, no payload is decoded) and leaves the globals unchanged,
whatever the payload map and the decoder are. -/
theorem handleWebSocketResponse_filtered (client : Client) (PostFromJson : String → Option Post)
    (event : WebSocketEvent) (g : Globals) (ch : Channel) (b : WebsocketBroadcast)
    (hch : g.debuggingChannel = some ch) (hb : event.Broadcast = some b)
    (h : b.ChannelId ≠ ch.Id ∨ event.Event ≠ WEBSOCKET_EVENT_POSTED) :
    handleWebSocketResponse client PostFromJson event g = ⟨g, [], none⟩ ∧
      outboundPosts (handleWebSocketResponse client PostFromJson event g).trace = [] ∧
      decodedPayloads (handleWebSocketResponse client PostFromJson event g).trace = [] := by
  have key : handleWebSocketResponse client PostFromJson event g = ⟨g, [], none⟩ := by
    unfold handleWebSocketResponse handleMsgFromDebuggingChannel
    rcases h with h | h
    · simp [hch, hb, h]
    · by_cases hid : b.ChannelId = ch.Id <;> simp [hch, hb, h, hid]
  rw [key]
  exact ⟨rfl, rfl, rfl⟩

/-- C4 on an event of kind `channel_updated` on the logging channel. -/
theorem handleWebSocketResponse_filtered_witness :
    handleWebSocketResponse sampleClient sampleDecoder
        { Event := "channel_updated", Data := [("post", .str "p1|u2|alive")],
          Broadcast := some { ChannelId := "c1" } } sampleGlobals = ⟨sampleGlobals, [], none⟩ ∧
      outboundPosts (handleWebSocketResponse sampleClient sampleDecoder
        { Event := "channel_updated", Data := [("post", .str "p1|u2|alive")],
          Broadcast := some { ChannelId := "c1" } } sampleGlobals).trace = [] ∧
      decodedPayloads (handleWebSocketResponse sampleClient sampleDecoder
        { Event := "channel_updated", Data := [("post", .str "p1|u2|alive")],
          Broadcast := some { ChannelId := "c1" } } sampleGlobals).trace = [] :=
  handleWebSocketResponse_filtered sampleClient sampleDecoder
    { Event := "channel_updated", Data := [("post", .str "p1|u2|alive")],
      Broadcast := some { ChannelId := "c1" } } sampleGlobals
    { Id := "c1", Name := "eve" } { ChannelId := "c1" } rfl rfl (Or.inr (by decide))

/-- C10 fails on the code: on an event that passes both filters and whose payload does not
decode, the handler reaches `post.Id` of the absent post in its last statement and stops
with a nil dereference, after decoding and before any post is created. -/
theorem handleMsg_absent_post_nil_dereference (client : Client)
    (PostFromJson : String → Option Post) (event : WebSocketEvent) (g : Globals) (ch : Channel)
    (b : WebsocketBroadcast) (payload : String)
    (hch : g.debuggingChannel = some ch) (hb : event.Broadcast = some b)
    (hid : b.ChannelId = ch.Id) (hkind : event.Event = WEBSOCKET_EVENT_POSTED)
    (hdata : event.Data.lookup "post" = some (.str payload))
    (hpost : PostFromJson payload = none) :
    handleMsgFromDebuggingChannel client PostFromJson event g =
      ⟨g, [.println "responding to debugging channel msg", .postFromJson payload],
        some .nilDereference⟩ := by
  rw [handleMsg_routed client PostFromJson event g ch b payload hch hb hid hkind hdata, hpost]
  simp [replyToPost]

/-- C10 fails at the payload "garbage", with the logging channel and the bot user set. -/
theorem handleMsg_absent_post_nil_dereference_witness :
    handleMsgFromDebuggingChannel sampleClient sampleDecoder (postedEvent "garbage")
        sampleGlobals =
      ⟨sampleGlobals, [.println "responding to debugging channel msg", .postFromJson "garbage"],
        some .nilDereference⟩ :=
  handleMsg_absent_post_nil_dereference sampleClient sampleDecoder (postedEvent "garbage")
    sampleGlobals { Id := "c1", Name := "eve" } { ChannelId := "c1" } "garbage"
    rfl rfl rfl rfl (by decide) (by decide)

/-! ## Lemmas on the bootstrap loops -/

/-- The loop of `createBotDebuggingChannelIfNeeded` finds the first channel with the
configured name. -/
theorem findLoggingChannel_some (opts : Opts) (channels : List Channel) (c : Channel) :
    findLoggingChannel opts channels = some c ↔
      ∃ before after, channels = before ++ c :: after ∧ c.Name = opts.ChannelLogName ∧
        ∀ x ∈ before, x.Name ≠ opts.ChannelLogName := by
  induction channels with
  | nil => simp [findLoggingChannel]
  | cons x xs ih =>
    unfold findLoggingChannel
    by_cases hx : x.Name = opts.ChannelLogName
    · simp only [hx, if_true, Option.some.injEq]
      constructor
      · rintro rfl
        exact ⟨[], xs, rfl, hx, by simp⟩
      · rintro ⟨before, after, heq, -, hbefore⟩
        cases before with
        | nil =>
          simp only [List.nil_append, List.cons.injEq] at heq
          exact heq.1
        | cons y ys =>
          simp only [List.cons_append, List.cons.injEq] at heq
          exact absurd (heq.1 ▸ hx) (hbefore y (by simp))
    · simp only [hx, if_false, ih]
      constructor
      · rintro ⟨before, after, rfl, hc, hbefore⟩
        refine ⟨x :: before, after, rfl, hc, ?_⟩
        intro y hy
        rcases List.mem_cons.mp hy with rfl | hy
        · exact hx
        · exact hbefore y hy
      · rintro ⟨before, after, heq, hc, hbefore⟩
        cases before with
        | nil =>
          simp only [List.nil_append, List.cons.injEq] at heq
          exact absurd (heq.1 ▸ hc) hx
        | cons y ys =>
          simp only [List.cons_append, List.cons.injEq] at heq
          exact ⟨ys, after, heq.2, hc, fun z hz => hbefore z (by simp [hz])⟩

theorem findLoggingChannel_none (opts : Opts) (channels : List Channel) :
    findLoggingChannel opts channels = none ↔ ∀ x ∈ channels, x.Name ≠ opts.ChannelLogName := by
  induction channels with
  | nil => simp [findLoggingChannel]
  | cons x xs ih =>
    unfold findLoggingChannel
    by_cases hx : x.Name = opts.ChannelLogName <;> simp [hx, ih]

/-- The channel `createBotDebuggingChannelIfNeeded` asks the server to create. -/
theorem createLoggingChannel_calls (client : Client) (opts : Opts) (g : Globals) :
    createChannelCalls (createLoggingChannel client opts g).trace =
        [{ Name := opts.ChannelLogName, DisplayName := "Debugging For Sample Bot",
           Purpose := "This is used as a test channel for logging bot debug messages",
           Type_ := CHANNEL_OPEN }] ∧
      (createLoggingChannel client opts g).halt = none ∧
      (∀ created, client.CreateChannel
          { Name := opts.ChannelLogName, DisplayName := "Debugging For Sample Bot",
            Purpose := "This is used as a test channel for logging bot debug messages",
            Type_ := CHANNEL_OPEN } = .ok created →
        (createLoggingChannel client opts g).globals.debuggingChannel = some created) ∧
      (∀ err, client.CreateChannel
          { Name := opts.ChannelLogName, DisplayName := "Debugging For Sample Bot",
            Purpose := "This is used as a test channel for logging bot debug messages",
            Type_ := CHANNEL_OPEN } = .error err →
        (createLoggingChannel client opts g).globals = g) := by
  unfold createLoggingChannel
  cases h : client.CreateChannel
      { Name := opts.ChannelLogName, DisplayName := "Debugging For Sample Bot",
        Purpose := "This is used as a test channel for logging bot debug messages",
        Type_ := CHANNEL_OPEN } <;>
    simp [h, createChannelCalls, printError]

/-- The loop of `findBotTeam` leaves every global but `botTeam` alone, and sets `botTeam`
to the first team with the configured name, if there is one. -/
theorem findBotTeamLoop_spec (opts : Opts) (teams : List Team) (g : Globals) :
    (∀ t, (findBotTeamLoop opts teams g).botTeam = some t →
        g.botTeam = some t ∨
        ∃ before after, teams = before ++ t :: after ∧ t.Name = opts.TeamName ∧
          ∀ x ∈ before, x.Name ≠ opts.TeamName) ∧
      ((∀ x ∈ teams, x.Name ≠ opts.TeamName) → findBotTeamLoop opts teams g = g) ∧
      ((∃ x ∈ teams, x.Name = opts.TeamName) → (findBotTeamLoop opts teams g).botTeam ≠ none) := by
  induction teams with
  | nil => simp [findBotTeamLoop]
  | cons x xs ih =>
    unfold findBotTeamLoop
    by_cases hx : x.Name = opts.TeamName
    · simp only [hx, if_true]
      refine ⟨?_, ?_, ?_⟩
      · intro t ht
        right
        simp only [Option.some.injEq] at ht
        subst ht
        exact ⟨[], xs, rfl, hx, by simp⟩
      · intro h
        exact absurd hx (h x (by simp))
      · intro _
        simp
    · simp only [hx, if_false]
      obtain ⟨ih1, ih2, ih3⟩ := ih
      refine ⟨?_, ?_, ?_⟩
      · intro t ht
        rcases ih1 t ht with h | ⟨before, after, rfl, hc, hbefore⟩
        · exact Or.inl h
        · right
          refine ⟨x :: before, after, rfl, hc, ?_⟩
          intro y hy
          rcases List.mem_cons.mp hy with rfl | hy
          · exact hx
          · exact hbefore y hy
      · intro h
        exact ih2 fun y hy => h y (by simp [hy])
      · rintro ⟨y, hy, hname⟩
        rcases List.mem_cons.mp hy with rfl | hy
        · exact absurd hname hx
        · exact ih3 ⟨y, hy, hname⟩

/-- C6: `createBotDebuggingChannelIfNeeded`.  When the server lists a channel with the
configured name, the logging channel becomes the first such channel in list order and no
creation call is made.  When no listed channel has the name, or listing fails, exactly one
creation call is made, for a channel with the configured name, display name
"Debugging For Sample Bot", the fixed purpose and type open; when that call succeeds the
logging channel becomes the channel it returns.  The function returns in every case. -/
theorem createBotDebuggingChannelIfNeeded_spec (client : Client) (opts : Opts) (g : Globals) :
    (∀ channels, client.GetChannels "" = .ok channels →
      (∃ x ∈ channels, x.Name = opts.ChannelLogName) →
      ∃ before c after, channels = before ++ c :: after ∧ c.Name = opts.ChannelLogName ∧
        (∀ x ∈ before, x.Name ≠ opts.ChannelLogName) ∧
        (createBotDebuggingChannelIfNeeded client opts g).globals.debuggingChannel = some c ∧
        createChannelCalls (createBotDebuggingChannelIfNeeded client opts g).trace = [] ∧
        (createBotDebuggingChannelIfNeeded client opts g).halt = none) ∧
    (((∃ channels, client.GetChannels "" = .ok channels ∧
          ∀ x ∈ channels, x.Name ≠ opts.ChannelLogName) ∨
        ∃ err, client.GetChannels "" = .error err) →
      createChannelCalls (createBotDebuggingChannelIfNeeded client opts g).trace =
          [{ Name := opts.ChannelLogName, DisplayName := "Debugging For Sample Bot",
             Purpose := "This is used as a test channel for logging bot debug messages",
             Type_ := CHANNEL_OPEN }] ∧
        (createBotDebuggingChannelIfNeeded client opts g).halt = none ∧
        ∀ created, client.CreateChannel
            { Name := opts.ChannelLogName, DisplayName := "Debugging For Sample Bot",
              Purpose := "This is used as a test channel for logging bot debug messages",
              Type_ := CHANNEL_OPEN } = .ok created →
          (createBotDebuggingChannelIfNeeded client opts g).globals.debuggingChannel =
            some created) := by
  have hc := createLoggingChannel_calls client opts g
  constructor
  · intro channels hget hex
    cases hf : findLoggingChannel opts channels with
    | none =>
      obtain ⟨x, hx, hname⟩ := hex
      exact absurd hname ((findLoggingChannel_none opts channels).mp hf x hx)
    | some c =>
      obtain ⟨before, after, heq, hname, hbefore⟩ := (findLoggingChannel_some opts channels c).mp hf
      refine ⟨before, c, after, heq, hname, hbefore, ?_⟩
      unfold createBotDebuggingChannelIfNeeded
      simp [hget, hf, createChannelCalls]
  · rintro (⟨channels, hget, hno⟩ | ⟨err, hget⟩)
    · have hf := (findLoggingChannel_none opts channels).mpr hno
      unfold createBotDebuggingChannelIfNeeded
      simp only [hget, hf, Result.andThen, List.singleton_append]
      exact ⟨by simpa [createChannelCalls] using hc.1, hc.2.1, hc.2.2.1⟩
    · unfold createBotDebuggingChannelIfNeeded
      simp only [hget, Result.andThen]
      exact ⟨by simpa [createChannelCalls, printError] using hc.1, hc.2.1, hc.2.2.1⟩

/-- C6 on a server that lists the channel `eve` second, and on one that lists no such
channel. -/
theorem createBotDebuggingChannelIfNeeded_spec_witness :
    (∃ before c after,
        [({ Id := "c0", Name := "town-square" } : Channel), { Id := "c1", Name := "eve" }] =
          before ++ c :: after ∧ c.Name = "eve" ∧ (∀ x ∈ before, x.Name ≠ "eve") ∧
        (createBotDebuggingChannelIfNeeded sampleClient {} {}).globals.debuggingChannel = some c ∧
        createChannelCalls (createBotDebuggingChannelIfNeeded sampleClient {} {}).trace = [] ∧
        (createBotDebuggingChannelIfNeeded sampleClient {} {}).halt = none) ∧
    (createChannelCalls (createBotDebuggingChannelIfNeeded noChannelClient {} {}).trace =
          [{ Name := "eve", DisplayName := "Debugging For Sample Bot",
             Purpose := "This is used as a test channel for logging bot debug messages",
             Type_ := CHANNEL_OPEN }] ∧
        (createBotDebuggingChannelIfNeeded noChannelClient {} {}).halt = none ∧
        ∀ created, noChannelClient.CreateChannel
            { Name := "eve", DisplayName := "Debugging For Sample Bot",
              Purpose := "This is used as a test channel for logging bot debug messages",
              Type_ := CHANNEL_OPEN } = .ok created →
          (createBotDebuggingChannelIfNeeded noChannelClient {} {}).globals.debuggingChannel =
            some created) :=
  ⟨(createBotDebuggingChannelIfNeeded_spec sampleClient {} {}).1
      [{ Id := "c0", Name := "town-square" }, { Id := "c1", Name := "eve" }] rfl
      ⟨{ Id := "c1", Name := "eve" }, by simp, rfl⟩,
   (createBotDebuggingChannelIfNeeded_spec noChannelClient {} {}).2
      (Or.inl ⟨[{ Id := "c0", Name := "town-square" }], rfl, by decide⟩)⟩

/-- C8: `findBotTeam`, started with no team resolved.  If some loaded team has the
configured name, the team reference becomes the first such team in list order and the
function returns; if none has (the empty list included), the process exits with code 1 and
the team reference stays unset.  So it exits with code 1 exactly when no loaded team has
the configured name. -/
theorem findBotTeam_spec (opts : Opts) (g : Globals) (il : InitialLoad)
    (hteam : g.botTeam = none) (hil : g.initialLoad = some il) :
    ((∃ x ∈ il.Teams, x.Name = opts.TeamName) →
      ∃ before t after, il.Teams = before ++ t :: after ∧ t.Name = opts.TeamName ∧
        (∀ x ∈ before, x.Name ≠ opts.TeamName) ∧
        (findBotTeam opts g).globals.botTeam = some t ∧ (findBotTeam opts g).halt = none) ∧
    ((∀ x ∈ il.Teams, x.Name ≠ opts.TeamName) →
      (findBotTeam opts g).halt = some (.exit 1) ∧ (findBotTeam opts g).globals.botTeam = none) ∧
    ((findBotTeam opts g).halt = some (.exit 1) ↔ ∀ x ∈ il.Teams, x.Name ≠ opts.TeamName) := by
  obtain ⟨h1, h2, h3⟩ := findBotTeamLoop_spec opts il.Teams g
  have hfound : (∃ x ∈ il.Teams, x.Name = opts.TeamName) →
      ∃ before t after, il.Teams = before ++ t :: after ∧ t.Name = opts.TeamName ∧
        (∀ x ∈ before, x.Name ≠ opts.TeamName) ∧
        (findBotTeam opts g).globals.botTeam = some t ∧ (findBotTeam opts g).halt = none := by
    intro hex
    have hne := h3 hex
    cases ht : (findBotTeamLoop opts il.Teams g).botTeam with
    | none => exact absurd ht hne
    | some t =>
      rcases h1 t ht with h | ⟨before, after, heq, hname, hbefore⟩
      · rw [hteam] at h
        exact Option.noConfusion h
      · refine ⟨before, t, after, heq, hname, hbefore, ?_⟩
        unfold findBotTeam
        simp [hil, ht]
  have hmissing : (∀ x ∈ il.Teams, x.Name ≠ opts.TeamName) →
      (findBotTeam opts g).halt = some (.exit 1) ∧ (findBotTeam opts g).globals.botTeam = none := by
    intro hno
    unfold findBotTeam
    simp [hil, h2 hno, hteam]
  refine ⟨hfound, hmissing, ?_, fun hno => (hmissing hno).1⟩
  intro hexit
  by_contra hcon
  push_neg at hcon
  obtain ⟨_, _, _, _, _, _, _, hhalt⟩ := hfound hcon
  rw [hhalt] at hexit
  exact Option.noConfusion hexit

/-- C8 on a load whose second team is `upmedia`, with no team resolved before. -/
theorem findBotTeam_spec_witness :
    (∃ before t after,
        [({ Id := "t0", Name := "other" } : Team), { Id := "t1", Name := "upmedia" }] =
          before ++ t :: after ∧ t.Name = "upmedia" ∧ (∀ x ∈ before, x.Name ≠ "upmedia") ∧
        (findBotTeam {} { initialLoad := some ⟨[{ Id := "t0", Name := "other" },
          { Id := "t1", Name := "upmedia" }]⟩ }).globals.botTeam = some t ∧
        (findBotTeam {} { initialLoad := some ⟨[{ Id := "t0", Name := "other" },
          { Id := "t1", Name := "upmedia" }]⟩ }).halt = none) ∧
    ((findBotTeam {} { initialLoad := some ⟨[]⟩ }).halt = some (.exit 1) ∧
      (findBotTeam {} { initialLoad := some ⟨[]⟩ }).globals.botTeam = none) :=
  ⟨(findBotTeam_spec {} { initialLoad := some ⟨[{ Id := "t0", Name := "other" },
        { Id := "t1", Name := "upmedia" }]⟩ }
      ⟨[{ Id := "t0", Name := "other" }, { Id := "t1", Name := "upmedia" }]⟩ rfl rfl).1
      ⟨{ Id := "t1", Name := "upmedia" }, by simp, rfl⟩,
   (findBotTeam_spec {} { initialLoad := some ⟨[]⟩ } ⟨[]⟩ rfl rfl).2.1 (by simp)⟩

/-- C9: `updateTheBotUserIfNeeded` issues a profile update call exactly when the remote first
name, last name or username differs from the configuration; the user sent has the three
fields set to the configured values and every other field as logged in; when all three
already agree, no action is performed and the globals, the bot identity included, are
unchanged. -/
theorem updateTheBotUserIfNeeded_spec (client : Client) (opts : Opts) (g : Globals) (u : User)
    (hu : g.botUser = some u) :
    (updateUserCalls (updateTheBotUserIfNeeded client opts g).trace ≠ [] ↔
      (u.FirstName ≠ opts.UserFirst ∨ u.LastName ≠ opts.UserLast ∨ u.Username ≠ opts.UserName)) ∧
    ((u.FirstName ≠ opts.UserFirst ∨ u.LastName ≠ opts.UserLast ∨ u.Username ≠ opts.UserName) →
      updateUserCalls (updateTheBotUserIfNeeded client opts g).trace =
        [{ Id := u.Id, Username := opts.UserName, Email := u.Email, Nickname := u.Nickname,
           FirstName := opts.UserFirst, LastName := opts.UserLast }]) ∧
    (¬ (u.FirstName ≠ opts.UserFirst ∨ u.LastName ≠ opts.UserLast ∨ u.Username ≠ opts.UserName) →
      updateTheBotUserIfNeeded client opts g = ⟨g, [], none⟩) := by
  have hcalls : (u.FirstName ≠ opts.UserFirst ∨ u.LastName ≠ opts.UserLast ∨
        u.Username ≠ opts.UserName) →
      updateUserCalls (updateTheBotUserIfNeeded client opts g).trace =
        [{ Id := u.Id, Username := opts.UserName, Email := u.Email, Nickname := u.Nickname,
           FirstName := opts.UserFirst, LastName := opts.UserLast }] := by
    intro hd
    unfold updateTheBotUserIfNeeded
    simp only [hu, hd, if_true]
    cases h : client.UpdateUser
        { u with FirstName := opts.UserFirst, LastName := opts.UserLast,
                 Username := opts.UserName } <;>
      simp [updateUserCalls, printError]
  have hsame : ¬ (u.FirstName ≠ opts.UserFirst ∨ u.LastName ≠ opts.UserLast ∨
        u.Username ≠ opts.UserName) →
      updateTheBotUserIfNeeded client opts g = ⟨g, [], none⟩ := by
    intro hd
    unfold updateTheBotUserIfNeeded
    simp only [hu, hd, if_false]
  refine ⟨⟨?_, fun hd => by rw [hcalls hd]; simp⟩, hcalls, hsame⟩
  intro hne
  by_contra hd
  rw [hsame hd] at hne
  exact hne rfl

/-- C9 on a logged-in user whose last name differs from the configuration. -/
theorem updateTheBotUserIfNeeded_spec_witness :
    updateUserCalls (updateTheBotUserIfNeeded sampleClient {}
        { botUser := some { Id := "bot1", Username := "eve", Email := "e@x", Nickname := "ev",
                            FirstName := "Eve", LastName := "Robot" } }).trace =
      [{ Id := "bot1", Username := "eve", Email := "e@x", Nickname := "ev",
         FirstName := "Eve", LastName := "Bot" }] :=
  (updateTheBotUserIfNeeded_spec sampleClient {}
      { botUser := some { Id := "bot1", Username := "eve", Email := "e@x", Nickname := "ev",
                          FirstName := "Eve", LastName := "Robot" } }
      { Id := "bot1", Username := "eve", Email := "e@x", Nickname := "ev",
        FirstName := "Eve", LastName := "Robot" } rfl).2.1 (Or.inr (Or.inl (by decide)))

/-- C7 fails on the code: when no listed channel has the configured name and the creation
call fails, `createBotDebuggingChannelIfNeeded` returns with the globals unchanged, so the
logging channel stays unset; every later send then stops with a nil dereference at
`debuggingChannel.Id`: it creates no post, and the process crashes instead of carrying on. -/
theorem send_after_failed_channel_creation (client : Client) (opts : Opts) (g : Globals)
    (channels : List Channel) (err : AppError)
    (hch : g.debuggingChannel = none)
    (hget : client.GetChannels "" = .ok channels)
    (hno : ∀ x ∈ channels, x.Name ≠ opts.ChannelLogName)
    (hfail : client.CreateChannel
        { Name := opts.ChannelLogName, DisplayName := "Debugging For Sample Bot",
          Purpose := "This is used as a test channel for logging bot debug messages",
          Type_ := CHANNEL_OPEN } = .error err) :
    (createBotDebuggingChannelIfNeeded client opts g).halt = none ∧
      (createBotDebuggingChannelIfNeeded client opts g).globals = g ∧
      ∀ msg replyToId,
        sendMsgToDebuggingChannel client msg replyToId
            (createBotDebuggingChannelIfNeeded client opts g).globals =
          ⟨g, [], some .nilDereference⟩ := by
  have hc := createLoggingChannel_calls client opts g
  have hf := (findLoggingChannel_none opts channels).mpr hno
  have hg : (createBotDebuggingChannelIfNeeded client opts g).globals = g := by
    unfold createBotDebuggingChannelIfNeeded
    simp only [hget, hf, Result.andThen]
    exact hc.2.2.2 err hfail
  refine ⟨?_, hg, ?_⟩
  · unfold createBotDebuggingChannelIfNeeded
    simp only [hget, hf, Result.andThen]
    exact hc.2.1
  · intro msg replyToId
    rw [hg]
    exact sendMsgToDebuggingChannel_unset client msg replyToId g hch

/-- C7 fails on a server without the channel `eve` that refuses to create it: the startup
announcement stops `main` with a nil dereference. -/
theorem send_after_failed_channel_creation_witness :
    ((createBotDebuggingChannelIfNeeded noChannelClient {} {}).halt = none ∧
      (createBotDebuggingChannelIfNeeded noChannelClient {} {}).globals = {} ∧
      ∀ msg replyToId,
        sendMsgToDebuggingChannel noChannelClient msg replyToId
            (createBotDebuggingChannelIfNeeded noChannelClient {} {}).globals =
          ⟨{}, [], some .nilDereference⟩) ∧
    (main noChannelClient {}).1.halt = some .nilDereference ∧
    outboundPosts (main noChannelClient {}).1.trace = [] :=
  ⟨send_after_failed_channel_creation noChannelClient {} {}
      [{ Id := "c0", Name := "town-square" }]
      ⟨"create failed", "api.channel.create", "forbidden"⟩ rfl rfl (by decide) rfl,
   by decide, by decide⟩

/-! ## The package-level event stream reference -/

theorem andThen_webSocketClient (r : Result) (k : Globals → Result)
    (hk : ∀ g, (k g).globals.webSocketClient = g.webSocketClient) :
    (r.andThen k).globals.webSocketClient = r.globals.webSocketClient := by
  unfold Result.andThen
  cases r.halt with
  | none => exact hk _
  | some h => rfl

theorem sendMsgToDebuggingChannel_globals (client : Client) (msg replyToId : String)
    (g : Globals) : (sendMsgToDebuggingChannel client msg replyToId g).globals = g := by
  unfold sendMsgToDebuggingChannel
  cases g.debuggingChannel with
  | none => rfl
  | some ch =>
    cases h : client.CreatePost { ChannelId := ch.Id, Message := msg, RootId := replyToId } <;>
      simp [h]

theorem sendMsgToDebuggingChannel_closes_nothing (client : Client) (msg replyToId : String)
    (g : Globals) : closedStreams (sendMsgToDebuggingChannel client msg replyToId g).trace = [] := by
  unfold sendMsgToDebuggingChannel
  cases g.debuggingChannel with
  | none => rfl
  | some ch =>
    cases h : client.CreatePost { ChannelId := ch.Id, Message := msg, RootId := replyToId } <;>
      simp [h, closedStreams, printError]

theorem findBotTeamLoop_webSocketClient (opts : Opts) (teams : List Team) (g : Globals) :
    (findBotTeamLoop opts teams g).webSocketClient = g.webSocketClient := by
  induction teams with
  | nil => rfl
  | cons x xs ih =>
    unfold findBotTeamLoop
    by_cases hx : x.Name = opts.TeamName <;> simp [hx, ih]

theorem createLoggingChannel_webSocketClient (client : Client) (opts : Opts) (g : Globals) :
    (createLoggingChannel client opts g).globals.webSocketClient = g.webSocketClient := by
  unfold createLoggingChannel
  cases h : client.CreateChannel
      { Name := opts.ChannelLogName, DisplayName := "Debugging For Sample Bot",
        Purpose := "This is used as a test channel for logging bot debug messages",
        Type_ := CHANNEL_OPEN } <;>
    simp [h]

/-- No statement of the bootstrap assigns the package-level `webSocketClient`. -/
theorem mainBootstrap_webSocketClient (client : Client) (opts : Opts) :
    (mainBootstrap client opts).globals.webSocketClient = none := by
  unfold mainBootstrap
  rw [andThen_webSocketClient, andThen_webSocketClient, andThen_webSocketClient,
    andThen_webSocketClient, andThen_webSocketClient, andThen_webSocketClient]
  · unfold makeSureServerIsRunning
    cases client.GetPing <;> rfl
  · intro g
    unfold loginAsTheBotUser
    cases client.Login opts.UserEmail opts.UserPasswd <;> rfl
  · intro g
    unfold updateTheBotUserIfNeeded
    cases g.botUser with
    | none => rfl
    | some u =>
      by_cases hd : u.FirstName ≠ opts.UserFirst ∨ u.LastName ≠ opts.UserLast ∨
          u.Username ≠ opts.UserName
      · simp only [hd, if_true]
        cases client.UpdateUser
          { u with FirstName := opts.UserFirst, LastName := opts.UserLast,
                   Username := opts.UserName } <;> rfl
      · simp only [hd, if_false]
  · intro g
    unfold initialLoads
    cases client.GetInitialLoad <;> rfl
  · intro g
    unfold findBotTeam
    cases g.initialLoad with
    | none => rfl
    | some il =>
      by_cases ht : (findBotTeamLoop opts il.Teams g).botTeam = none <;>
        simp [ht, findBotTeamLoop_webSocketClient]
  · intro g
    cases g.botTeam <;> rfl
  · intro g
    rw [andThen_webSocketClient _ _ (fun g2 => by rw [sendMsgToDebuggingChannel_globals])]
    unfold createBotDebuggingChannelIfNeeded
    cases hget : client.GetChannels "" with
    | error err =>
      simp only []
      exact andThen_webSocketClient _ _ (createLoggingChannel_webSocketClient client opts)
    | ok channels =>
      cases hf : findLoggingChannel opts channels with
      | none =>
        simp only [hf]
        exact andThen_webSocketClient _ _ (createLoggingChannel_webSocketClient client opts)
      | some c => simp only [hf]

/-- C5 fails on the code: whatever the server answers, after `main` the package-level
`webSocketClient` is still nil, because `main` keeps the stream it opens in a variable of
its own, and so the shutdown handler closes no stream.  On a server where every call
succeeds `main` does open a stream, and on an interrupt the handler only sends the
announcement and exits with code 0. -/
theorem shutdown_never_closes_stream :
    (∀ (client : Client) (opts : Opts),
      (main client opts).1.globals.webSocketClient = none ∧
        closedStreams (shutdownHandler client (main client opts).1.globals).trace = []) ∧
    (main sampleClient {}).2 = some ⟨"ws://localhost:8065", "token"⟩ ∧
    (shutdownHandler sampleClient (main sampleClient {}).1.globals).trace =
      [.createPost { ChannelId := "c1", Message := "_EVE has **stopped** running_", RootId := "" }] ∧
    (shutdownHandler sampleClient (main sampleClient {}).1.globals).halt = some (.exit 0) := by
  refine ⟨?_, by decide, by decide, by decide⟩
  intro client opts
  have hg : (main client opts).1.globals.webSocketClient = none := by
    have hb := mainBootstrap_webSocketClient client opts
    unfold main
    cases hh : (mainBootstrap client opts).halt with
    | some h => simpa [hh] using hb
    | none =>
      cases hn : client.NewWebSocketClient "ws://localhost:8065" client.AuthToken <;>
        simpa [hh, hn] using hb
  refine ⟨hg, ?_⟩
  have hs := sendMsgToDebuggingChannel_closes_nothing client
    ("_" ++ robotName ++ " has **stopped** running_") "" (main client opts).1.globals
  unfold shutdownHandler
  rw [hg]
  simp only [Result.andThen]
  cases hh : (sendMsgToDebuggingChannel client ("_" ++ robotName ++ " has **stopped** running_")
      "" (main client opts).1.globals).halt <;> simp [hh, hs, closedStreams]

end Eve
